import Mathlib

/-!
# Live Trip Tracking & Geofencing Subsystem — verification development

Shallow embedding of the real-time tracking service
(`src/services/realTimeTracking.ts`) and the Twilio SMS service
(`twilioService.ts`).  Numbers are modelled over `ℝ`; external
collaborators (the store, the auth provider, the SMS/push senders) are
modelled as explicit environment records whose fields give the outcome
of each collaborator call, and the notification calls a run performs are
collected into an explicit trace.
-/

namespace RealTimeTracking

open Real

/-- A latitude/longitude pair, the `{ lat, lng }` shape used throughout
the service. -/
structure Coord where
  lat : ℝ
  lng : ℝ

/-- Semantics of JavaScript `Math.atan2 y x` on real inputs. -/
noncomputable def jsAtan2 (y x : ℝ) : ℝ :=
  if 0 < x then arctan (y / x)
  else if x < 0 then
    (if 0 ≤ y then arctan (y / x) + π else arctan (y / x) - π)
  else if 0 < y then π / 2
  else if y < 0 then -(π / 2)
  else 0

/-- The haversine great-circle distance formula that the service inlines
(identically) in both `calculateETA` and `isWithinGeofence`:
Earth radius 6 371 000 m, `c = 2·atan2(√a, √(1-a))`. -/
noncomputable def haversineDistance (location center : Coord) : ℝ :=
  let R : ℝ := 6371000
  let phi1 := location.lat * π / 180
  let phi2 := center.lat * π / 180
  let dphi := (center.lat - location.lat) * π / 180
  let dlam := (center.lng - location.lng) * π / 180
  let a := sin (dphi / 2) * sin (dphi / 2) +
    cos phi1 * cos phi2 * sin (dlam / 2) * sin (dlam / 2)
  let c := 2 * jsAtan2 (Real.sqrt a) (Real.sqrt (1 - a))
  R * c

/-- `isWithinGeofence(location, center, radiusMeters)`: boundary-inclusive
point-in-circle test, `distance <= radiusMeters`. -/
def isWithinGeofence (location center : Coord) (radiusMeters : ℝ) : Prop :=
  haversineDistance location center ≤ radiusMeters

/-- Result shape of `calculateETA`: `eta` is an epoch-milliseconds
timestamp, `distance` and `duration` are `Math.round`ed integers. -/
structure ETAResult where
  eta : ℝ
  distance : ℤ
  duration : ℤ

/-- `calculateETA(currentLocation, destination, currentSpeed)`.  The
source computes the haversine distance, picks
`speed = currentSpeed > 0 ? currentSpeed / 3.6 : 13.89` (the comment in
the source reads "Convert km/h to m/s, default 50 km/h"), and sets
`duration = distance / speed`, `eta = now + duration·1000`.  `Date.now()`
is passed in explicitly as `now`. -/
noncomputable def calculateETA (currentLocation destination : Coord)
    (currentSpeed : ℝ) (now : ℝ) : ETAResult :=
  let distance := haversineDistance currentLocation destination
  let speed := if 0 < currentSpeed then currentSpeed / 3.6 else 13.89
  let duration := distance / speed
  { eta := now + duration * 1000
    distance := round distance
    duration := round duration }

lemma jsAtan2_sin_cos {t : ℝ} (h0 : 0 ≤ t) (h1 : t < π / 2) :
    jsAtan2 (sin t) (cos t) = t := by
  have hc : 0 < cos t := by
    refine cos_pos_of_mem_Ioo ⟨?_, h1⟩
    have := pi_pos
    linarith
  rw [jsAtan2, if_pos hc, ← tan_eq_sin_div_cos, arctan_tan ?_ h1]
  have := pi_pos
  linarith

lemma haversine_self (c : Coord) : haversineDistance c c = 0 := by
  simp only [haversineDistance, sub_self, zero_mul, zero_div, sin_zero,
    mul_zero, zero_add, add_zero, Real.sqrt_zero, sub_zero, Real.sqrt_one]
  have h : jsAtan2 0 1 = 0 := by
    rw [jsAtan2, if_pos one_pos]
    simp [arctan_zero]
  rw [h]
  ring

/-- On the equator, a longitude offset of `θ·180/π` degrees (i.e. `θ`
radians, `0 ≤ θ < π`) is at haversine distance exactly `6371000·θ`
from the origin. -/
lemma haversine_equator {θ : ℝ} (h0 : 0 ≤ θ) (h1 : θ < π) :
    haversineDistance ⟨0, 0⟩ ⟨0, θ * 180 / π⟩ = 6371000 * θ := by
  have hπ : (π : ℝ) ≠ 0 := pi_ne_zero
  have hdlam : (θ * 180 / π - 0) * π / 180 = θ := by field_simp
  simp only [haversineDistance, hdlam, sub_self, zero_mul, zero_div,
    sin_zero, mul_zero, zero_add, cos_zero, one_mul]
  have hsin : 0 ≤ sin (θ / 2) := by
    refine sin_nonneg_of_nonneg_of_le_pi (by linarith) (by linarith [pi_pos])
  have ha : Real.sqrt (sin (θ / 2) * sin (θ / 2)) = sin (θ / 2) :=
    Real.sqrt_mul_self hsin
  have hcos : 0 ≤ cos (θ / 2) := by
    refine cos_nonneg_of_mem_Icc ⟨by linarith [pi_pos], by linarith⟩
  have h1a : 1 - sin (θ / 2) * sin (θ / 2) = cos (θ / 2) * cos (θ / 2) := by
    have := sin_sq_add_cos_sq (θ / 2)
    nlinarith [this]
  have hb : Real.sqrt (1 - sin (θ / 2) * sin (θ / 2)) = cos (θ / 2) := by
    rw [h1a]
    exact Real.sqrt_mul_self hcos
  rw [ha, hb, jsAtan2_sin_cos (by linarith) (by linarith)]
  ring

/-! ## Channel registry

`RealTimeTrackingService` keeps a `Map<string, RealtimeChannel>` named
`channels`.  A channel is modelled by the numeric id the transport
collaborator hands out on open; `openedChannels` is the spy counter of
underlying channel opens.  A returned cancel function is always
`() => this.unsubscribe(channelName)`, so it is represented by the
channel name it will unsubscribe. -/

/-- The subscription-related fields of `RealTimeTrackingService`. -/
structure TrackingState where
  channels : List (String × ℕ)
  nextChannelId : ℕ
  openedChannels : ℕ
deriving Repr, DecidableEq

/-- The shared pattern of the three `subscribeTo…` methods: if
`channels` already has the name, warn and return the existing cancel
behaviour without opening anything; otherwise open a channel, record it,
and return a cancel function for the name. -/
def subscribeChannel (channelName : String) (s : TrackingState) :
    String × TrackingState :=
  match s.channels.lookup channelName with
  | some _ => (channelName, s)
  | none =>
    (channelName,
      { channels := (channelName, s.nextChannelId) :: s.channels
        nextChannelId := s.nextChannelId + 1
        openedChannels := s.openedChannels + 1 })

/-- `subscribeToDriverLocation(tripId, driverId, onUpdate)` keyed by
`trip:${tripId}:driver:${driverId}`. -/
def subscribeToDriverLocation (tripId driverId : String) (s : TrackingState) :
    String × TrackingState :=
  subscribeChannel ("trip:" ++ tripId ++ ":driver:" ++ driverId) s

/-- `subscribeToTripStatus(tripId, onUpdate)` keyed by
`trip:${tripId}:status`. -/
def subscribeToTripStatus (tripId : String) (s : TrackingState) :
    String × TrackingState :=
  subscribeChannel ("trip:" ++ tripId ++ ":status") s

/-- `subscribeToPassengers(tripId, onUpdate)` keyed by
`trip:${tripId}:passengers`. -/
def subscribeToPassengers (tripId : String) (s : TrackingState) :
    String × TrackingState :=
  subscribeChannel ("trip:" ++ tripId ++ ":passengers") s

/-- `unsubscribe(channelName)`: if the map has the channel, remove it
from the transport (`supabase.removeChannel`) and delete the key;
otherwise do nothing.  The second component counts `removeChannel`
calls made. -/
def unsubscribe (channelName : String) (s : TrackingState) :
    TrackingState × ℕ :=
  match s.channels.lookup channelName with
  | some _ =>
    ({ s with channels := s.channels.filter (fun p => p.1 ≠ channelName) }, 1)
  | none => (s, 0)

/-- The location-watch fields of `RealTimeTrackingService`. -/
structure LocationTrackingState where
  locationWatchId : Option ℕ
  currentTripId : Option String
deriving Repr, DecidableEq

/-- `stopLocationTracking()`: clear the geolocation watch when one is
active and null both fields.  The second component counts
`navigator.geolocation.clearWatch` calls made. -/
def stopLocationTracking (s : LocationTrackingState) :
    LocationTrackingState × ℕ :=
  match s.locationWatchId with
  | some _ => ({ locationWatchId := none, currentTripId := none }, 1)
  | none => ({ locationWatchId := none, currentTripId := none }, 0)

/-- Platform semantics of `clearInterval id` on the set of live interval
timers: the timer with that id no longer fires; clearing an unknown id
is a no-op and never an error. -/
def clearInterval (id : ℕ) (active : List ℕ) : List ℕ :=
  active.filter (fun i => i ≠ id)

/-! ## Geofence monitor

`monitorPickupZone` runs a `setInterval` loop.  Each tick queries the
newest `live_locations` row for the trip; a tick is modelled by the
outcome of that query: `none` when the query fails or returns no row
(the `if (data && data.coordinates)` guard), `some c` when it yields
coordinates `c`.  `monitorTicks` consumes the scheduled tick outcomes in
order and returns `(ticks actually executed, onArrival invocations)`;
on the first in-zone sample it fires the callback and clears its own
interval, so no later tick executes. -/

open Classical in
/-- The tick loop of `monitorPickupZone(tripId, pickupLocation,
radiusMeters, onArrival)`. -/
noncomputable def monitorTicks (pickupLocation : Coord) (radiusMeters : ℝ) :
    List (Option Coord) → ℕ × ℕ
  | [] => (0, 0)
  | none :: rest =>
    let p := monitorTicks pickupLocation radiusMeters rest
    (p.1 + 1, p.2)
  | some c :: rest =>
    if isWithinGeofence c pickupLocation radiusMeters then (1, 1)
    else
      let p := monitorTicks pickupLocation radiusMeters rest
      (p.1 + 1, p.2)

/-- A tick outcome that triggers arrival: the query produced a sample
inside the geofence. -/
def tickArrives (pickupLocation : Coord) (radiusMeters : ℝ) :
    Option Coord → Prop
  | none => False
  | some c => isWithinGeofence c pickupLocation radiusMeters

/-! ## Trip status updates -/

/-- The `status` column values of a trip. -/
inductive TripStatusKind where
  | waiting
  | arriving
  | picked_up
  | in_progress
  | completed
  | cancelled
deriving Repr, DecidableEq

/-- The columns of a `trips` row that `updateTripStatus` touches. -/
structure TripRow where
  status : TripStatusKind
  eta : Option ℝ
  distance_remaining : Option ℝ
  duration_remaining : Option ℝ
  updated_at : ℝ

/-- The column update `updateTripStatus` sends: `status` and
`updated_at` are always written; `eta`, `distance_remaining` and
`duration_remaining` are written only when supplied (an `undefined`
field is dropped from the payload, leaving the stored value). -/
def applyStatusUpdate (status : TripStatusKind)
    (eta distance duration : Option ℝ) (now : ℝ) (row : TripRow) : TripRow :=
  { status := status
    eta := if eta.isSome then eta else row.eta
    distance_remaining := if distance.isSome then distance else row.distance_remaining
    duration_remaining := if duration.isSome then duration else row.duration_remaining
    updated_at := now }

/-- `updateTripStatus(tripId, status, eta?, distance?, duration?)`: run
the store update on every `trips` row whose id matches, with no check of
the previous status; a store error is caught and surfaced as `false`
(the store left unchanged), otherwise `true`. -/
def updateTripStatus (tripId : String) (status : TripStatusKind)
    (eta distance duration : Option ℝ) (now : ℝ)
    (db : List (String × TripRow)) (writeOk : Bool) :
    Bool × List (String × TripRow) :=
  if writeOk then
    (true, db.map (fun p =>
      if p.1 = tripId then (p.1, applyStatusUpdate status eta distance duration now p.2)
      else p))
  else (false, db)

/-! ## Emergency SOS dispatch

External collaborator outcomes are packaged in `SOSEnv`; the
notification calls a run performs are collected in order into a
`List NotifyCall`.  SMS message text and push payloads are built from
the trip id, user name and location but their string content plays no
role in any verified property, so a trace entry records the recipient
only. -/

/-- One `{ name, phone }` emergency contact. -/
structure Contact where
  name : String
  phone : String
deriving Repr, DecidableEq

/-- The `profiles` row fields read by `notifyEmergencyContacts`
(`full_name`, `emergency_contacts`; either may be null). -/
structure Profile where
  full_name : Option String
  emergency_contacts : Option (List Contact)

/-- One `bookings` row joined into the trip participants query. -/
structure Booking where
  passenger_id : Option String

/-- The `trips` row fields read by the participants query. -/
structure TripParticipantsRow where
  driver_id : Option String
  bookings : List Booking

/-- A call to a notification collaborator. -/
inductive NotifyCall where
  | sms (phone : String)
  | push (userId : String)
  | emergencyServices
deriving Repr, DecidableEq

/-- Outcomes of the external collaborators consulted during one
`sendEmergencySOS` run: the resolved auth user, whether the
`emergency_alerts` insert succeeds, the `profiles` row, the per-phone
SMS outcome, and the participants row. -/
structure SOSEnv where
  user : Option String
  insertOk : Bool
  profile : Option Profile
  smsOutcome : String → Bool
  trip : Option TripParticipantsRow

/-- `twilioService.sendEmergencySMS(emergencyContacts, location, tripId,
userName)`: one `sendSMS` per contact in order, counting
`{ sent, failed }` from each result and never breaking out of the loop.
Returns the counts and the trace of SMS sends. -/
def sendEmergencySMS (contacts : List Contact) (smsOutcome : String → Bool) :
    (ℕ × ℕ) × List NotifyCall :=
  match contacts with
  | [] => ((0, 0), [])
  | c :: rest =>
    let r := sendEmergencySMS rest smsOutcome
    (if smsOutcome c.phone then (r.1.1 + 1, r.1.2) else (r.1.1, r.1.2 + 1),
      NotifyCall.sms c.phone :: r.2)

/-- `notifyEmergencyContacts(tripId, userId, location)`: load the
profile (missing profile returns early); SMS the emergency contacts when
any exist; push to `driver_id` plus each booking's `passenger_id`
(nulls and empty ids dropped by `filter(Boolean)`); always attempt the
`/api/emergency/notify` call, whose failure is caught locally.  The
whole body is inside a `try`/`catch`, so this never throws.
Modelled from the spec: the push collaborator
(`pushNotificationService`, whose module is not part of the analysed
sources) reports failure in its result instead of throwing, so a failed
push does not cut the fan-out short. -/
def notifyEmergencyContacts (tripId userId : String) (location : Coord)
    (env : SOSEnv) : List NotifyCall :=
  match env.profile with
  | none => []
  | some profile =>
    let contacts := profile.emergency_contacts.getD []
    let smsTrace :=
      if contacts.length > 0 then (sendEmergencySMS contacts env.smsOutcome).2
      else []
    let participants :=
      match env.trip with
      | none => []
      | some trip =>
        ((trip.driver_id :: trip.bookings.map Booking.passenger_id).reduceOption).filter
          (fun u => u ≠ "")
    smsTrace ++ participants.map NotifyCall.push ++ [NotifyCall.emergencyServices]

/-- `sendEmergencySOS(tripId, location, reason?)`: resolve the user
(unresolvable user throws, caught as `false`); insert the
`emergency_alerts` row (insert error throws, caught as `false`); only
then fan out notifications and return `true`.  The second component is
the trace of notification collaborator calls the run performed. -/
def sendEmergencySOS (tripId : String) (location : Coord)
    (reason : Option String) (env : SOSEnv) : Bool × List NotifyCall :=
  match env.user with
  | none => (false, [])
  | some uid =>
    if env.insertOk then
      (true, notifyEmergencyContacts tripId uid location env)
    else (false, [])

/-! ## Location broadcast -/

/-- The fields of `GeolocationPosition.coords` that `broadcastLocation`
reads; `heading` and `speed` are null when the device cannot supply
them. -/
structure GeoCoords where
  latitude : ℝ
  longitude : ℝ
  heading : Option ℝ
  speed : Option ℝ
  accuracy : ℝ

/-- The `live_locations` row upserted by `broadcastLocation`. -/
structure LiveLocationRow where
  trip_id : String
  user_id : String
  coordinates : Coord
  heading : ℝ
  speed : ℝ
  accuracy : ℝ
  updated_at : ℝ

/-- `broadcastLocation(tripId, position)`: build the row with
`userId = (await getUser()).data.user?.id || ''`,
`heading = coords.heading || 0`, `speed = coords.speed || 0`, and upsert
it; an upsert failure is caught and logged, never raised.  The returned
row is the upsert payload. -/
def broadcastLocation (tripId : String) (authUser : Option String)
    (coords : GeoCoords) (now : ℝ) : LiveLocationRow :=
  { trip_id := tripId
    user_id := authUser.getD ""
    coordinates := ⟨coords.latitude, coords.longitude⟩
    heading := coords.heading.getD 0
    speed := coords.speed.getD 0
    accuracy := coords.accuracy
    updated_at := now }

/-! ## Claim theorems -/

/-- C1: whenever the triggering identity cannot be resolved or the
`emergency_alerts` insert fails, `sendEmergencySOS` returns `false` and
performs no notification collaborator call at all — no SMS send, no push
send, no emergency-services notify. -/
theorem sendEmergencySOS_failure_no_fanout
    (tripId : String) (location : Coord) (reason : Option String)
    (env : SOSEnv) (h : env.user = none ∨ env.insertOk = false) :
    sendEmergencySOS tripId location reason env = (false, []) := by
  rcases h with h | h
  · simp [sendEmergencySOS, h]
  · cases hu : env.user with
    | none => simp [sendEmergencySOS, hu]
    | some uid => simp [sendEmergencySOS, hu, h]

theorem sendEmergencySOS_failure_no_fanout_witness :
    sendEmergencySOS "trip-1" ⟨0, 0⟩ none
      { user := none, insertOk := true, profile := none,
        smsOutcome := fun _ => true, trip := none } = (false, []) :=
  sendEmergencySOS_failure_no_fanout "trip-1" ⟨0, 0⟩ none _ (Or.inl rfl)

/-- C2: whenever the triggering identity resolves and the
`emergency_alerts` insert succeeds, `sendEmergencySOS` returns `true`,
whatever the profile lookup, SMS, push, or emergency-services outcomes
in the environment are. -/
theorem sendEmergencySOS_success_despite_fanout_failures
    (tripId : String) (location : Coord) (reason : Option String)
    (env : SOSEnv) (uid : String) (hu : env.user = some uid)
    (hi : env.insertOk = true) :
    (sendEmergencySOS tripId location reason env).1 = true := by
  simp [sendEmergencySOS, hu, hi]

theorem sendEmergencySOS_success_despite_fanout_failures_witness :
    (sendEmergencySOS "trip-1" ⟨0, 0⟩ (some "help")
      ⟨some "user-1", true,
        some ⟨some "Ahmed", some [⟨"A", "100"⟩, ⟨"B", "200"⟩, ⟨"C", "300"⟩]⟩,
        fun p => p != "200",
        some ⟨some "driver-1", [⟨some "passenger-1"⟩]⟩⟩).1 = true :=
  sendEmergencySOS_success_despite_fanout_failures "trip-1" ⟨0, 0⟩
    (some "help") _ "user-1" rfl rfl

/-- C6: `sendEmergencySMS` attempts exactly one SMS per contact in list
order (so a failed send never aborts the remaining ones), its counts
satisfy `sent + failed = number of contacts`, and with three contacts of
which exactly the second fails it returns `{sent := 2, failed := 1}`. -/
theorem sendEmergencySMS_per_contact_counts :
    ∀ (contacts : List Contact) (smsOutcome : String → Bool),
      ((sendEmergencySMS contacts smsOutcome).2
        = contacts.map (fun c => NotifyCall.sms c.phone))
      ∧ (sendEmergencySMS contacts smsOutcome).1.1
          + (sendEmergencySMS contacts smsOutcome).1.2 = contacts.length
      ∧ (∀ c1 c2 c3 : Contact,
          smsOutcome c1.phone = true → smsOutcome c2.phone = false →
          smsOutcome c3.phone = true →
          (sendEmergencySMS [c1, c2, c3] smsOutcome).1 = (2, 1)) := by
  intro contacts f
  refine ⟨?_, ?_, ?_⟩
  · induction contacts with
    | nil => rfl
    | cons c rest ih => simp [sendEmergencySMS, ih]
  · induction contacts with
    | nil => rfl
    | cons c rest ih =>
      cases h : f c.phone <;> simp [sendEmergencySMS, h] <;> omega
  · intro c1 c2 c3 h1 h2 h3
    simp [sendEmergencySMS, h1, h2, h3]

theorem sendEmergencySMS_per_contact_counts_witness :
    (sendEmergencySMS [⟨"Alice", "100"⟩, ⟨"Bob", "200"⟩, ⟨"Carol", "300"⟩]
      (fun p => p != "200")).1 = (2, 1) :=
  (sendEmergencySMS_per_contact_counts
      [⟨"Alice", "100"⟩, ⟨"Bob", "200"⟩, ⟨"Carol", "300"⟩]
      (fun p => p != "200")).2.2
    ⟨"Alice", "100"⟩ ⟨"Bob", "200"⟩ ⟨"Carol", "300"⟩
    (by decide) (by decide) (by decide)

/-- C7: `updateTripStatus` succeeds exactly when the store write
succeeds; when the write goes through it applies the update to the
matching trip row whatever status that row previously held (no
transition validation), and a failed write leaves the store unchanged
and surfaces as `false`. -/
theorem updateTripStatus_permissive :
    ∀ (tripId : String) (status : TripStatusKind)
      (eta distance duration : Option ℝ) (now : ℝ)
      (db : List (String × TripRow)) (writeOk : Bool) (row : TripRow),
      ((updateTripStatus tripId status eta distance duration now db writeOk).1 = true
        ↔ writeOk = true)
      ∧ (writeOk = false →
          (updateTripStatus tripId status eta distance duration now db writeOk).2 = db)
      ∧ ((tripId, row) ∈ db → writeOk = true →
          (tripId, applyStatusUpdate status eta distance duration now row)
            ∈ (updateTripStatus tripId status eta distance duration now db writeOk).2) := by
  intro tripId status eta distance duration now db writeOk row
  refine ⟨?_, ?_, ?_⟩
  · cases writeOk <;> simp [updateTripStatus]
  · intro h; subst h; simp [updateTripStatus]
  · intro hmem h
    subst h
    simp only [updateTripStatus, if_pos]
    have := List.mem_map_of_mem
      (f := fun p : String × TripRow =>
        if p.1 = tripId then (p.1, applyStatusUpdate status eta distance duration now p.2)
        else p) hmem
    simpa using this

theorem updateTripStatus_permissive_witness :
    ("trip-1", applyStatusUpdate TripStatusKind.waiting none none none 1
        ⟨TripStatusKind.completed, none, none, none, 0⟩)
      ∈ (updateTripStatus "trip-1" TripStatusKind.waiting none none none 1
          [("trip-1", ⟨TripStatusKind.completed, none, none, none, 0⟩)] true).2 :=
  (updateTripStatus_permissive "trip-1" TripStatusKind.waiting none none none 1
      [("trip-1", ⟨TripStatusKind.completed, none, none, none, 0⟩)] true
      ⟨TripStatusKind.completed, none, none, none, 0⟩).2.2
    (by simp) rfl

/-- C10: `broadcastLocation` substitutes defaults for missing inputs
instead of dropping the sample: with no authenticated user the row is
still built with `user_id = ""`, and a null heading or speed is recorded
as `0`, indistinguishable from a true reading of `0`. -/
theorem broadcastLocation_defaults :
    ∀ (tripId : String) (coords : GeoCoords) (now : ℝ),
      (broadcastLocation tripId none coords now).user_id = ""
      ∧ (∀ authUser,
          broadcastLocation tripId authUser { coords with heading := none } now
            = broadcastLocation tripId authUser { coords with heading := some 0 } now)
      ∧ (∀ authUser,
          broadcastLocation tripId authUser { coords with speed := none } now
            = broadcastLocation tripId authUser { coords with speed := some 0 } now) :=
  fun _ _ _ => ⟨rfl, fun _ => rfl, fun _ => rfl⟩

lemma lookup_filter_self (channelName : String) (l : List (String × ℕ)) :
    (l.filter (fun p => p.1 ≠ channelName)).lookup channelName = none := by
  induction l with
  | nil => rfl
  | cons p rest ih =>
    obtain ⟨k, v⟩ := p
    by_cases h : k = channelName
    · simpa [List.filter_cons, h] using ih
    · have hb : (channelName == k) = false := beq_eq_false_iff_ne.mpr (Ne.symm h)
      simp [List.filter_cons, h, List.lookup, hb, ih]
      exact fun a _ _ hne => Ne.symm hne

lemma unsubscribe_not_found (channelName : String) (s : TrackingState)
    (h : s.channels.lookup channelName = none) :
    unsubscribe channelName s = (s, 0) := by
  simp only [unsubscribe, h]

lemma subscribeChannel_twice (channelName : String) (s : TrackingState) :
    subscribeChannel channelName (subscribeChannel channelName s).2
      = subscribeChannel channelName s := by
  cases h : s.channels.lookup channelName with
  | some v => simp [subscribeChannel, h]
  | none => simp [subscribeChannel, h, List.lookup]

lemma subscribeChannel_cancel_removes (channelName : String) (s : TrackingState) :
    (((unsubscribe (subscribeChannel channelName s).1
        (subscribeChannel channelName s).2).1).channels.lookup channelName)
      = none := by
  cases h : s.channels.lookup channelName with
  | some v =>
    simp only [subscribeChannel, h, unsubscribe]
    exact lookup_filter_self channelName s.channels
  | none =>
    simp only [subscribeChannel, h, unsubscribe]
    have hl : ((channelName, s.nextChannelId) :: s.channels).lookup channelName
        = some s.nextChannelId := by simp [List.lookup]
    rw [hl]
    exact lookup_filter_self channelName _

/-- C4: a second subscribe with the same key (for each of the three
subscription shapes) returns the same cancel function and the very same
registry state — no second underlying channel is opened — the cancel
function it returns removes the existing subscription, and two
subscribes with the same key starting from an empty registry open
exactly one underlying channel. -/
theorem subscribe_same_key_single_channel :
    ∀ (s : TrackingState) (tripId driverId : String),
      (subscribeToDriverLocation tripId driverId
          (subscribeToDriverLocation tripId driverId s).2
        = subscribeToDriverLocation tripId driverId s)
      ∧ (subscribeToTripStatus tripId (subscribeToTripStatus tripId s).2
          = subscribeToTripStatus tripId s)
      ∧ (subscribeToPassengers tripId (subscribeToPassengers tripId s).2
          = subscribeToPassengers tripId s)
      ∧ (((unsubscribe (subscribeToDriverLocation tripId driverId s).1
            (subscribeToDriverLocation tripId driverId s).2).1).channels.lookup
              ("trip:" ++ tripId ++ ":driver:" ++ driverId) = none)
      ∧ ((subscribeToDriverLocation tripId driverId
            (subscribeToDriverLocation tripId driverId ⟨[], 0, 0⟩).2).2.openedChannels
          = 1) := by
  intro s tripId driverId
  refine ⟨subscribeChannel_twice _ s, subscribeChannel_twice _ s,
    subscribeChannel_twice _ s, subscribeChannel_cancel_removes _ s, ?_⟩
  simp [subscribeToDriverLocation, subscribeChannel, List.lookup]

/-- C8: invoking any cancel handle a second time is a no-op that makes
no collaborator call: a second `unsubscribe` of the same channel name
leaves the registry unchanged and calls `removeChannel` zero times, a
second `stopLocationTracking` leaves the watch state unchanged and calls
`clearWatch` zero times, and clearing an interval id that was already
cleared (for instance by the geofence monitor cancelling itself on
arrival) changes nothing. -/
theorem cancel_functions_idempotent :
    ∀ (channelName : String) (s : TrackingState) (ls : LocationTrackingState)
      (id : ℕ) (active : List ℕ),
      (unsubscribe channelName (unsubscribe channelName s).1
        = ((unsubscribe channelName s).1, 0))
      ∧ (stopLocationTracking (stopLocationTracking ls).1
          = ((stopLocationTracking ls).1, 0))
      ∧ (clearInterval id (clearInterval id active) = clearInterval id active) := by
  intro channelName s ls id active
  refine ⟨?_, ?_, ?_⟩
  · cases h : s.channels.lookup channelName with
    | some v =>
      refine unsubscribe_not_found channelName _ ?_
      simp only [unsubscribe, h]
      exact lookup_filter_self channelName s.channels
    | none =>
      have h1 : (unsubscribe channelName s).1 = s := by
        rw [unsubscribe_not_found channelName s h]
      rw [h1, unsubscribe_not_found channelName s h]
  · cases h : ls.locationWatchId <;> simp [stopLocationTracking, h]
  · simp [clearInterval, List.filter_filter]

/-- C9: `isWithinGeofence` holds exactly when the haversine distance
from the point to the center is at most the radius (boundary-inclusive),
and in particular a geofence always contains its own center for any
radius `≥ 0`. -/
theorem isWithinGeofence_boundary_inclusive
    (point center : Coord) (radiusMeters : ℝ) (hr : 0 ≤ radiusMeters) :
    (isWithinGeofence point center radiusMeters ↔
      haversineDistance point center ≤ radiusMeters)
    ∧ isWithinGeofence center center radiusMeters := by
  refine ⟨Iff.rfl, ?_⟩
  unfold isWithinGeofence
  rw [haversine_self]
  exact hr

theorem isWithinGeofence_boundary_inclusive_witness :
    (0 : ℝ) ≤ 0 ∧ isWithinGeofence ⟨0, 1⟩ ⟨0, 1⟩ 0 :=
  ⟨le_refl 0, (isWithinGeofence_boundary_inclusive ⟨0, 0⟩ ⟨0, 1⟩ 0 (le_refl 0)).2⟩

/-- C5: if tick `k` is the first tick whose fetched sample lies within
the geofence (every earlier tick either failed its query, returned no
sample, or was outside), the monitor executes exactly `k + 1` ticks and
invokes `onArrival` exactly once; and if no tick's sample is ever within
the geofence, `onArrival` is never invoked and every scheduled tick
runs (failed ticks are skipped, not errors). -/
theorem monitorPickupZone_arrival_exactly_once
    (pickupLocation : Coord) (radiusMeters : ℝ) :
    (∀ (ts : List (Option Coord)) (k : ℕ) (hk : k < ts.length),
        tickArrives pickupLocation radiusMeters (ts.get ⟨k, hk⟩) →
        (∀ j (hj : j < k),
          ¬ tickArrives pickupLocation radiusMeters
            (ts.get ⟨j, Nat.lt_trans hj hk⟩)) →
        monitorTicks pickupLocation radiusMeters ts = (k + 1, 1))
    ∧ (∀ ts : List (Option Coord),
        (∀ j (hj : j < ts.length),
          ¬ tickArrives pickupLocation radiusMeters (ts.get ⟨j, hj⟩)) →
        monitorTicks pickupLocation radiusMeters ts = (ts.length, 0)) := by
  constructor
  · intro ts
    induction ts with
    | nil => intro k hk; exact absurd hk (Nat.not_lt_zero k)
    | cons t rest ih =>
      intro k hk harr hbef
      cases k with
      | zero =>
        cases t with
        | none => exact absurd harr (by intro hf; exact hf)
        | some c =>
          have hw : isWithinGeofence c pickupLocation radiusMeters := harr
          simp only [monitorTicks, if_pos hw]
      | succ k =>
        have hne : ¬ tickArrives pickupLocation radiusMeters t :=
          hbef 0 (Nat.succ_pos k)
        have hk2 : k < rest.length := Nat.lt_of_succ_lt_succ hk
        have ih2 := ih k hk2 harr (fun j hj => hbef (j + 1) (Nat.succ_lt_succ hj))
        cases t with
        | none =>
          simp only [monitorTicks, ih2]
        | some c =>
          have hnw : ¬ isWithinGeofence c pickupLocation radiusMeters := hne
          simp only [monitorTicks, if_neg hnw, ih2]
  · intro ts
    induction ts with
    | nil => intro _; rfl
    | cons t rest ih =>
      intro hnone
      have hne : ¬ tickArrives pickupLocation radiusMeters t :=
        hnone 0 (Nat.succ_pos rest.length)
      have ih2 := ih (fun j hj => hnone (j + 1) (Nat.succ_lt_succ hj))
      cases t with
      | none => simp only [monitorTicks, ih2, List.length_cons]
      | some c =>
        have hnw : ¬ isWithinGeofence c pickupLocation radiusMeters := hne
        simp only [monitorTicks, if_neg hnw, ih2, List.length_cons]

theorem monitorPickupZone_arrival_exactly_once_witness :
    monitorTicks ⟨0, 1⟩ 100 [none, some ⟨0, 0⟩, some ⟨0, 1⟩, some ⟨0, 0⟩]
      = (3, 1) := by
  have hout : ¬ isWithinGeofence ⟨0, 0⟩ ⟨0, 1⟩ 100 := by
    unfold isWithinGeofence
    have h := haversine_equator (θ := π / 180) (by positivity)
      (by linarith [pi_pos])
    have harg : π / 180 * 180 / π = 1 := by
      field_simp
    rw [harg] at h
    rw [h]
    push_neg
    have := pi_gt_d6
    nlinarith
  have hin : isWithinGeofence ⟨0, 1⟩ ⟨0, 1⟩ 100 := by
    unfold isWithinGeofence
    rw [haversine_self]
    norm_num
  refine (monitorPickupZone_arrival_exactly_once ⟨0, 1⟩ 100).1
    [none, some ⟨0, 0⟩, some ⟨0, 1⟩, some ⟨0, 0⟩] 2 (by norm_num) hin ?_
  intro j hj
  interval_cases j
  · exact fun hf => hf
  · exact hout

/-- C3, counterexample: the claim says the effective speed equals the
given speed value (in m/s) whenever it is positive, i.e. that
`duration = round(distance / currentSpeed)`; at the concrete input
location (0,0), destination (0,90), speed 3600, the code's result
(which divides the speed parameter by 3.6, reading it as km/h)
disagrees with that formula. -/
theorem calculateETA_speed_param_not_mps :
    ¬ ((calculateETA ⟨0, 0⟩ ⟨0, 90⟩ 3600 0).duration
        = round (haversineDistance ⟨0, 0⟩ ⟨0, 90⟩ / 3600)) := by
  have hd : haversineDistance ⟨0, 0⟩ ⟨0, 90⟩ = 6371000 * (π / 2) := by
    have h := haversine_equator (θ := π / 2) (by positivity)
      (by linarith [pi_pos])
    have harg : π / 2 * 180 / π = 90 := by
      field_simp
      ring
    rw [harg] at h
    exact h
  have hcode : (calculateETA ⟨0, 0⟩ ⟨0, 90⟩ 3600 0).duration
      = round (6371000 * (π / 2) / (3600 / 3.6)) := by
    simp only [calculateETA, hd]
    norm_num
  have h1 : round (6371000 * (π / 2) / (3600 / 3.6)) = 10008 := by
    rw [round_eq, Int.floor_eq_iff]
    have hgt := pi_gt_d6
    have hlt := pi_lt_d6
    constructor
    · push_cast
      nlinarith
    · push_cast
      nlinarith
  have h2 : round (6371000 * (π / 2) / 3600) = 2780 := by
    rw [round_eq, Int.floor_eq_iff]
    have hgt := pi_gt_d6
    have hlt := pi_lt_d6
    constructor
    · push_cast
      nlinarith
    · push_cast
      nlinarith
  intro h
  rw [hcode, hd, h1, h2] at h
  exact absurd h (by decide)

/-- C3, amended: `calculateETA` computes
`duration = round(distance / effectiveSpeed)` where the effective speed
is `currentSpeed / 3.6` when `currentSpeed > 0` (the speed parameter is
in km/h and is converted to m/s) and `13.89` m/s otherwise; the returned
distance and duration are rounded to the nearest integer, and with
speed 0 and a 13 890 m distance the rounded duration is 1000 s. -/
theorem calculateETA_kmh_conversion :
    ∀ (currentLocation destination : Coord) (currentSpeed now : ℝ),
      (calculateETA currentLocation destination currentSpeed now).duration
        = round (haversineDistance currentLocation destination /
            (if 0 < currentSpeed then currentSpeed / 3.6 else 13.89))
      ∧ (calculateETA currentLocation destination currentSpeed now).distance
        = round (haversineDistance currentLocation destination)
      ∧ (haversineDistance currentLocation destination = 13890 →
          (calculateETA currentLocation destination 0 now).duration = 1000) := by
  intro currentLocation destination currentSpeed now
  refine ⟨rfl, rfl, ?_⟩
  intro h
  simp only [calculateETA, h, lt_self_iff_false, if_false]
  have hq : (13890 : ℝ) / 13.89 = 1000 := by norm_num
  rw [hq, show ((1000 : ℝ)) = ((1000 : ℤ) : ℝ) by norm_num, round_intCast]

theorem calculateETA_kmh_conversion_witness :
    haversineDistance ⟨0, 0⟩ ⟨0, 13890 * 180 / (6371000 * π)⟩ = 13890
    ∧ (calculateETA ⟨0, 0⟩ ⟨0, 13890 * 180 / (6371000 * π)⟩ 0 0).duration
        = 1000 := by
  have h0 : (0 : ℝ) ≤ 13890 / 6371000 := by norm_num
  have h1 : (13890 : ℝ) / 6371000 < π := by
    have := pi_gt_d6
    nlinarith
  have h := haversine_equator (θ := (13890 : ℝ) / 6371000) h0 h1
  have harg : (13890 : ℝ) / 6371000 * 180 / π = 13890 * 180 / (6371000 * π) := by
    ring
  rw [harg] at h
  have hval : (6371000 : ℝ) * (13890 / 6371000) = 13890 := by norm_num
  rw [hval] at h
  exact ⟨h, (calculateETA_kmh_conversion ⟨0, 0⟩
    ⟨0, 13890 * 180 / (6371000 * π)⟩ 0 0).2.2 h⟩

end RealTimeTracking
